import Mathlib

/-!
Verification development for the UniTune music-link API
(cross-platform track resolution pipeline).

The Python sources are shallowly embedded:

* pure functions (`ResponseBuilder.build_response`, `LinkEncoder`) become
  Lean functions over explicit data;
* every outbound network call (platform APIs, scrapes, searches) is
  abstracted as a field of an environment structure holding the call's
  result, so the surrounding control flow of the repository code is
  modelled exactly while the network itself stays a parameter;
* Python dicts used as string-keyed maps become association lists with
  Python's assignment semantics (`upsert`: replace in place, else append);
* Python `None`/missing keys become `Option`, Python truthiness of
  optional strings becomes `truthy` (`None` and `""` are falsy);
* a raised-and-caught exception in a `try` block is modelled by the
  corresponding environment outcome constructor.

`URLParser.parse` (pure regular-expression matching, src/utils/url_parser.py)
is abstracted as an environment field because no claim under verification
depends on its pattern internals, only on whether a URL is recognized.
-/

namespace Unitune

/-- ASCII uppercase of one character (what Python's `str.upper()` does
on the ASCII platform tags used throughout the code). -/
def upChar (c : Char) : Char :=
  if 97 ≤ c.toNat ∧ c.toNat ≤ 122 then Char.ofNat (c.toNat - 32) else c

/-- `s.upper()` for the ASCII strings this code applies it to. -/
def pyUpper (s : String) : String :=
  ⟨s.data.map upChar⟩

/-- Python truthiness of an optional string: `None` and `""` are falsy. -/
def truthy : Option String → Bool
  | none => false
  | some s => !(s == "")

/-- Track metadata dictionary as produced by the extractors in
src/extractors (keys id, title, artist, isrc, thumbnail, url). -/
structure Metadata where
  id : String
  title : String
  artist : String
  isrc : Option String
  thumbnail : Option String
  url : String
  deriving Repr, DecidableEq

/-- A per-platform link entry as written into the `links` dict of
`_process_music_link` / `convert_batch` in src/app.py. -/
structure Link where
  url : String
  entityUniqueId : String
  deriving Repr, DecidableEq

/-- Python dict assignment `d[k] = v` on an association list:
replace the value in place if the key exists, else append. -/
def upsert (k : String) (v : α) : List (String × α) → List (String × α)
  | [] => [(k, v)]
  | (k', v') :: rest => if k' = k then (k, v) :: rest else (k', v') :: upsert k v rest

/-! ## ResponseBuilder (src/utils/response_builder.py) -/

namespace ResponseBuilder

/-- Input metadata for `build_response`: a dict whose keys may all be
absent (the builder accesses them only through `.get`). -/
structure BMeta where
  id : Option String
  title : Option String
  artist : Option String
  thumbnail : Option String
  url : Option String
  deriving Repr, DecidableEq

/-- Input link entry for `build_response`: the `url` key is accessed
directly (`link_data['url']`), so it is required here — the totality
claim about the builder is stated under exactly that hypothesis.
`entityUniqueId` and `nativeAppUri` are read with `.get` / `in`. -/
structure BLink where
  url : String
  entityUniqueId : Option String
  nativeAppUri : Option String
  deriving Repr, DecidableEq

/-- The `entity` dict built by `build_response`. -/
structure Entity where
  id : Option String
  type : String
  title : String
  artistName : String
  thumbnailUrl : Option String
  thumbnailWidth : Nat
  thumbnailHeight : Nat
  apiProvider : String
  platforms : List String
  deriving Repr, DecidableEq

/-- A `linksByPlatform` entry of the response. -/
structure OutLink where
  url : String
  entityUniqueId : String
  nativeAppUriMobile : Option String
  deriving Repr, DecidableEq

/-- The full Odesli-compatible response.  `entitiesByUniqueId` always
holds the single entry `entityKey ↦ entity`. -/
structure Response where
  entityUniqueId : String
  userCountry : String
  pageUrl : String
  entityKey : String
  entity : Entity
  linksByPlatform : List (String × OutLink)
  deriving Repr, DecidableEq

/-- `ResponseBuilder.build_response` from src/utils/response_builder.py,
line for line. -/
def build_response (metadata : BMeta) (links : List (String × BLink))
    (source_platform : String) : Response :=
  let entity_id := pyUpper source_platform ++ "::TRACK::" ++ metadata.id.getD "unknown"
  let entity : Entity :=
    { id := metadata.id
      type := "song"
      title := metadata.title.getD "Unknown Title"
      artistName := metadata.artist.getD "Unknown Artist"
      thumbnailUrl := metadata.thumbnail
      thumbnailWidth := 640
      thumbnailHeight := 640
      apiProvider := source_platform
      platforms := links.map Prod.fst }
  let links_by_platform := links.map fun pl =>
    (pl.1,
      { url := pl.2.url
        entityUniqueId := pl.2.entityUniqueId.getD entity_id
        nativeAppUriMobile := pl.2.nativeAppUri : OutLink })
  { entityUniqueId := entity_id
    userCountry := "US"
    pageUrl := "https://unitune.art/s/" ++ metadata.url.getD ""
    entityKey := entity_id
    entity := entity
    linksByPlatform := links_by_platform }

end ResponseBuilder

/-! ## The resolution pipeline of src/app.py

Every outbound call made by `_process_music_link` / `convert_batch` is a
field of `AppEnv` holding that call's result (`none` models "the callee
returned a falsy value"); the control flow around those calls is
embedded line for line.  The searcher-call fields are functions of the
arguments the code passes, so the batch endpoint can consult them for
several URLs. -/

/-- Result of `youtube_searcher.search` as consumed by src/app.py:
`url` is accessed directly, `youtube_url` is tested with `in`,
`video_id` is read with `.get('video_id', 'unknown')`. -/
structure YtResult where
  url : String
  youtube_url : Option String
  video_id : Option String
  deriving Repr, DecidableEq

/-- Result of the Deezer/TIDAL/Apple/Amazon searchers as consumed by
src/app.py: `url` is accessed directly, `id` is read with
`.get('id', 'unknown')`. -/
structure SearchResult where
  url : String
  id : Option String
  deriving Repr, DecidableEq

/-- Environment of one request: the results of every outbound call the
pipeline can make, keyed by the arguments the code passes. -/
structure AppEnv where
  /-- `URLParser.parse` (abstracted; see the header comment). -/
  parse : String → Option (String × String)
  /-- `spotify_extractor.get_track_metadata(track_id)`. -/
  spotifyMeta : String → Option Metadata
  /-- `web_scraper.scrape_tidal(track_id)`. -/
  scrapeTidal : String → Option Metadata
  /-- `tidal_extractor.get_track_metadata(track_id)`. -/
  tidalApiMeta : String → Option Metadata
  /-- `web_scraper.scrape_apple_music(track_id)`. -/
  scrapeApple : String → Option Metadata
  /-- `web_scraper.scrape_amazon_music(track_id)`. -/
  scrapeAmazon : String → Option Metadata
  /-- `universal_extractor.extract_from_deezer(track_id)`. -/
  deezerExtract : String → Option Metadata
  /-- `universal_extractor.extract_from_youtube(track_id)`. -/
  youtubeExtract : String → Option Metadata
  /-- `spotify_extractor.search_track(artist, title, isrc)` — the
  cover-art call always made first (src/app.py line 450 / line 200). -/
  spotifySearch : String → String → Option String → Option Metadata
  /-- The retry call `spotify_extractor.search_track(artist, title, isrc)`
  at src/app.py line 481 (a second network call; its result may differ). -/
  spotifySearchRetry : String → String → Option String → Option Metadata
  /-- `youtube_searcher.search(artist, title)`. -/
  youtubeSearch : String → String → Option YtResult
  /-- `deezer_searcher.search(artist, title, isrc)`. -/
  deezerSearch : String → String → Option String → Option SearchResult
  /-- `tidal_searcher.search(artist, title, isrc)`. -/
  tidalSearch : String → String → Option String → Option SearchResult
  /-- `apple_music_searcher.search(artist, title)`. -/
  appleSearch : String → String → Option SearchResult
  /-- `amazon_music_searcher.search(artist, title)`. -/
  amazonSearch : String → String → Option SearchResult

/-- The source-platform extraction dispatch of src/app.py (lines
406-435 and the batch copy at lines 172-185): per-platform extractor
choice with the TIDAL scrape-then-API fallback. -/
def extractMeta (env : AppEnv) (platform trackId : String) : Option Metadata :=
  if platform = "spotify" then env.spotifyMeta trackId
  else if platform = "tidal" then
    match env.scrapeTidal trackId with
    | some m => some m
    | none => env.tidalApiMeta trackId
  else if platform = "appleMusic" then env.scrapeApple trackId
  else if platform = "amazonMusic" then env.scrapeAmazon trackId
  else if platform = "deezer" then env.deezerExtract trackId
  else if platform = "youtube" then env.youtubeExtract trackId
  else none

/-- The 404 message `_process_music_link` returns when extraction yields
nothing (TIDAL and YouTube have dedicated early returns, the rest fall
through to the generic message at src/app.py line 438). -/
def notFoundMsg (platform : String) : String :=
  if platform = "tidal" then
    "TIDAL track not found. The track might be unavailable or the ID is incorrect."
  else if platform = "youtube" then
    "Could not extract track info from YouTube video. The video might not be a music track."
  else
    "Track not found. Please check the URL and try again."

/-- The reconciliation step of src/app.py lines 450-456: when the
Spotify cover search returned a result with a truthy thumbnail, the
thumbnail is overridden and the ISRC backfilled (only inside that same
guard); otherwise the metadata is left untouched. -/
def reconcile (md : Metadata) (cover : Option Metadata) : Metadata :=
  match cover with
  | some r =>
    if truthy r.thumbnail then
      { md with
        thumbnail := r.thumbnail
        isrc := if !(truthy md.isrc) && truthy r.isrc then r.isrc else md.isrc }
    else md
  | none => md

/-- An argument triple of a `spotify_extractor.search_track` call, used
as the pipeline's call log entry. -/
abbrev SpotifyCall := String × String × Option String

/-- Output of the single-link pipeline: the finalized response together
with the log of `spotify_extractor.search_track` calls it performed. -/
structure PipeOut where
  response : ResponseBuilder.Response
  spotifyCalls : List SpotifyCall
  deriving Repr, DecidableEq

/-- Adapter: an extractor metadata dict as passed to
`ResponseBuilder.build_response` (all its keys are present). -/
def Metadata.toBMeta (md : Metadata) : ResponseBuilder.BMeta :=
  { id := some md.id
    title := some md.title
    artist := some md.artist
    thumbnail := md.thumbnail
    url := some md.url }

/-- Adapter: a `links` dict entry as passed to
`ResponseBuilder.build_response` (src/app.py always sets
`entityUniqueId` and never `nativeAppUri`). -/
def Link.toBLink (l : Link) : ResponseBuilder.BLink :=
  { url := l.url, entityUniqueId := some l.entityUniqueId, nativeAppUri := none }

/-- The common searcher pattern of src/app.py: `if result: links[key] =
make(result)` — upsert the entry built from the searcher result when
there is one, else leave the dict alone. -/
def stepOpt (key : String) (mk : α → Link) (o : Option α)
    (l : List (String × Link)) : List (String × Link) :=
  match o with
  | some r => upsert key (mk r) l
  | none => l

/-- The YouTube block of `_process_music_link` (src/app.py lines
494-506): the `youtubeMusic` entry plus the plain `youtube` twin when
the result carries a `youtube_url` key. -/
def stepYt (o : Option YtResult) (l : List (String × Link)) :
    List (String × Link) :=
  match o with
  | some r =>
    let l1 := upsert "youtubeMusic"
      ⟨r.url, "YOUTUBE::VIDEO::" ++ r.video_id.getD "unknown"⟩ l
    match r.youtube_url with
    | some yu =>
      upsert "youtube" ⟨yu, "YOUTUBE::VIDEO::" ++ r.video_id.getD "unknown"⟩ l1
    | none => l1
  | none => l

/-- The Spotify entry of `_process_music_link` (src/app.py lines
471-492): for a non-Spotify source reuse the cover-search result, else
retry the search once (`retry` holds that call's result), else no
entry; for a Spotify source the entry comes from the metadata itself. -/
def spotifyLinksStep (platform : String) (md : Metadata)
    (cover retry : Option Metadata) (l : List (String × Link)) :
    List (String × Link) :=
  if platform ≠ "spotify" then
    match cover with
    | some r => upsert "spotify" ⟨r.url, "SPOTIFY::TRACK::" ++ r.id⟩ l
    | none =>
      match retry with
      | some r => upsert "spotify" ⟨r.url, "SPOTIFY::TRACK::" ++ r.id⟩ l
      | none => l
  else upsert "spotify" ⟨md.url, "SPOTIFY::TRACK::" ++ md.id⟩ l

/-- The `spotify_extractor.search_track` calls the Spotify-entry block
issues: exactly one retry, made when the source is not Spotify and the
cover search returned nothing (src/app.py line 481). -/
def spotifyRetryCalls (platform : String) (cover : Option Metadata)
    (artist title : String) (isrc : Option String) : List SpotifyCall :=
  if platform ≠ "spotify" then
    match cover with
    | some _ => []
    | none => [(artist, title, isrc)]
  else []

/-- The links dict built by `_process_music_link` (src/app.py lines
459-538), starting from the already-reconciled metadata `md` and the
cover-search result, in the exact statement order of the source.
Returns the dict together with the spotify-search calls issued in this
phase (only the retry at line 481). -/
def mainLinks (env : AppEnv) (platform : String) (md : Metadata)
    (cover : Option Metadata) (artist title : String) (isrc : Option String) :
    List (String × Link) × List SpotifyCall :=
  -- line 462: always include the source platform first (except Spotify)
  let links0 : List (String × Link) :=
    if platform ≠ "spotify" then
      upsert platform ⟨md.url, pyUpper platform ++ "::TRACK::" ++ md.id⟩ []
    else []
  -- lines 471-492: the Spotify entry
  let links1 := spotifyLinksStep platform md cover
    (env.spotifySearchRetry artist title isrc) links0
  -- lines 494-506: YouTube Music plus the plain YouTube twin
  let links2 := stepYt (env.youtubeSearch artist title) links1
  -- lines 508-514: Deezer
  let links3 := stepOpt "deezer"
    (fun r => ⟨r.url, "DEEZER::TRACK::" ++ r.id.getD "unknown"⟩)
    (env.deezerSearch artist title isrc) links2
  -- lines 516-522: TIDAL
  let links4 := stepOpt "tidal"
    (fun r => ⟨r.url, "TIDAL::TRACK::" ++ r.id.getD "unknown"⟩)
    (env.tidalSearch artist title isrc) links3
  -- lines 524-530: Apple Music (literal SONG::unknown tag)
  let links5 := stepOpt "appleMusic" (fun r => ⟨r.url, "APPLEMUSIC::SONG::unknown"⟩)
    (env.appleSearch artist title) links4
  -- lines 532-538: Amazon Music (literal SONG::unknown tag)
  let links6 := stepOpt "amazonMusic" (fun r => ⟨r.url, "AMAZONMUSIC::SONG::unknown"⟩)
    (env.amazonSearch artist title) links5
  (links6, spotifyRetryCalls platform cover artist title isrc)

/-- `_process_music_link` from src/app.py (lines 385-543): parse,
per-platform extraction, reconciliation against the always-performed
Spotify cover search, link aggregation, response building.  The error
branch carries the (message, HTTP status) pair the code returns. -/
def processMusicLink (env : AppEnv) (music_url : String) :
    Except (String × Nat) PipeOut :=
  match env.parse music_url with
  | none =>
    .error
      ("Unsupported URL format. Supported platforms: Spotify, Apple Music, YouTube, Deezer, TIDAL, Amazon Music",
        400)
  | some (platform, trackId) =>
    match extractMeta env platform trackId with
    | none => .error (notFoundMsg platform, 404)
    | some md0 =>
      -- lines 445-447: captured before reconciliation mutates the dict
      let artist := md0.artist
      let title := md0.title
      let isrc := md0.isrc
      -- line 450: ALWAYS performed, whatever the source platform
      let cover := env.spotifySearch artist title isrc
      let md := reconcile md0 cover
      let aggregated := mainLinks env platform md cover artist title isrc
      .ok
        { response :=
            ResponseBuilder.build_response md.toBMeta
              (aggregated.1.map fun pl => (pl.1, pl.2.toBLink)) platform
          spotifyCalls := (artist, title, isrc) :: aggregated.2 }

/-! ## The batch endpoint `convert_batch` (src/app.py lines 108-289) -/

/-- The `urls` field of the batch request body after
`data.get('urls', [])`: absent (defaults to `[]`), present but not a
list, or a list of strings. -/
inductive UrlsValue
  | absent
  | notAList
  | list (urls : List String)
  deriving Repr, DecidableEq

/-- One entry of the batch `tracks` array (src/app.py lines 263-269). -/
structure BatchTrack where
  original_url : String
  title : String
  artist : String
  thumbnail_url : Option String
  links : List (String × Link)
  deriving Repr, DecidableEq

/-- One entry of the batch `errors` array (index, url, error message). -/
structure BatchErr where
  index : Nat
  url : String
  error : String
  deriving Repr, DecidableEq

/-- The batch success response body (src/app.py lines 280-285). -/
structure BatchResp where
  tracks : List BatchTrack
  success_count : Nat
  failed_count : Nat
  errors : List BatchErr
  deriving Repr, DecidableEq

/-- The links dict built inside the batch loop (src/app.py lines
206-260).  It differs from the single-link variant: no initial
source-platform entry, no Spotify retry search, and no plain `youtube`
twin entry. -/
def batchLinks (env : AppEnv) (platform : String) (md : Metadata)
    (cover : Option Metadata) (artist title : String) (isrc : Option String) :
    List (String × Link) :=
  -- lines 209-220: the Spotify entry (no retry search in the batch loop)
  let links1 : List (String × Link) :=
    if platform ≠ "spotify" then
      match cover with
      | some r => upsert "spotify" ⟨r.url, "SPOTIFY::TRACK::" ++ r.id⟩ []
      | none => []
    else
      upsert "spotify" ⟨md.url, "SPOTIFY::TRACK::" ++ md.id⟩ []
  -- lines 222-228: YouTube Music only (no plain youtube twin)
  let links2 := stepOpt "youtubeMusic"
    (fun (r : YtResult) => ⟨r.url, "YOUTUBE::VIDEO::" ++ r.video_id.getD "unknown"⟩)
    (env.youtubeSearch artist title) links1
  -- lines 230-260: Deezer, TIDAL, Apple Music, Amazon Music
  let links3 := stepOpt "deezer"
    (fun r => ⟨r.url, "DEEZER::TRACK::" ++ r.id.getD "unknown"⟩)
    (env.deezerSearch artist title isrc) links2
  let links4 := stepOpt "tidal"
    (fun r => ⟨r.url, "TIDAL::TRACK::" ++ r.id.getD "unknown"⟩)
    (env.tidalSearch artist title isrc) links3
  let links5 := stepOpt "appleMusic" (fun r => ⟨r.url, "APPLEMUSIC::SONG::unknown"⟩)
    (env.appleSearch artist title) links4
  stepOpt "amazonMusic" (fun r => ⟨r.url, "AMAZONMUSIC::SONG::unknown"⟩)
    (env.amazonSearch artist title) links5

/-- The body of one iteration of the batch loop (src/app.py lines
155-270): parse, extract, reconcile, aggregate; an `.error` is the
message appended to the `errors` array for this URL.  (The generic
`except` of the loop catches exceptions into the same array; in this
total model the per-URL body itself never raises.) -/
def processOneBatch (env : AppEnv) (url : String) : Except String BatchTrack :=
  match env.parse url with
  | none => .error "Unsupported URL format"
  | some (platform, trackId) =>
    match extractMeta env platform trackId with
    | none => .error "Track not found"
    | some md0 =>
      let artist := md0.artist
      let title := md0.title
      let isrc := md0.isrc
      let cover := env.spotifySearch artist title isrc
      let md := reconcile md0 cover
      .ok
        { original_url := url
          title := md.title
          artist := md.artist
          thumbnail_url := md.thumbnail
          links := batchLinks env platform md cover artist title isrc }

/-- The `for idx, url in enumerate(urls)` loop of `convert_batch`:
accumulates the `results` and `errors` arrays and the `success_count`
counter in input order. -/
def batchLoop (env : AppEnv) : Nat → List String →
    List BatchTrack × List BatchErr × Nat
  | _, [] => ([], [], 0)
  | idx, url :: rest =>
    let tail := batchLoop env (idx + 1) rest
    match processOneBatch env url with
    | .ok tr => (tr :: tail.1, tail.2.1, tail.2.2 + 1)
    | .error msg => (tail.1, ⟨idx, url, msg⟩ :: tail.2.1, tail.2.2)

/-- `convert_batch` from src/app.py (lines 108-289): body validation
(`not urls or not isinstance(urls, list)`, then the size bound), then
the per-URL loop; `body = none` models a falsy `request.get_json()`. -/
def convert_batch (env : AppEnv) (body : Option UrlsValue) :
    Except (String × Nat) BatchResp :=
  match body with
  | none => .error ("Invalid JSON body", 400)
  | some v =>
    match v with
    | .absent => .error ("Invalid request: urls array required", 400)
    | .notAList => .error ("Invalid request: urls array required", 400)
    | .list urls =>
      if urls = [] then .error ("Invalid request: urls array required", 400)
      else if urls.length > 10 then .error ("Maximum 10 URLs allowed", 400)
      else
        let looped := batchLoop env 0 urls
        .ok
          { tracks := looped.1
            success_count := looped.2.2
            failed_count := looped.2.1.length
            errors := looped.2.1 }

/-! ## SpotifyExtractor.search_track (src/extractors/spotify.py lines 53-85)

Both `self.sp.search(q=..., type='track', limit=1)` calls go through one
oracle keyed by the query string; a raised exception is the `.error`
outcome (the surrounding `except` returns `None` for the whole call).
`get_track_metadata` catches internally and returns `None` on failure,
so it is an `Option`-valued oracle. -/

/-- Network oracle for `SpotifyExtractor`. -/
structure SpotifyNet where
  /-- `self.sp.search(q=query, type='track', limit=1)`: the list of
  track ids in `results['tracks']['items']`, or a raised exception. -/
  search : String → Except Unit (List String)
  /-- `self.get_track_metadata(track_id)` (never raises: it catches
  internally and returns `None`). -/
  trackMeta : String → Option Metadata

namespace SpotifyExtractor

/-- The free-text branch of `search_track` (spotify.py lines 73-81):
query `artist:<artist> track:<title>`, take the first item
unconditionally, else `None`. -/
def textStep (net : SpotifyNet) (artist title : String) : Option Metadata :=
  match net.search ("artist:" ++ artist ++ " track:" ++ title) with
  | .error _ => none
  | .ok (t :: _) => net.trackMeta t
  | .ok [] => none

/-- `SpotifyExtractor.search_track` (spotify.py lines 53-85): ISRC
search first when a truthy ISRC is supplied (`if isrc:` — `None` and
`""` are falsy), committing to any non-empty item list; otherwise the
free-text query.  An exception anywhere inside the `try` yields `None`
for the whole call. -/
def search_track (net : SpotifyNet) (artist title : String)
    (isrc : Option String) : Option Metadata :=
  match isrc with
  | some i =>
    if i = "" then textStep net artist title
    else
      match net.search ("isrc:" ++ i) with
      | .error _ => none
      | .ok (t :: _) => net.trackMeta t
      | .ok [] => textStep net artist title
  | none => textStep net artist title

end SpotifyExtractor

/-! ## DeezerSearcher (src/searchers/deezer.py) -/

/-- Outcome of one Deezer HTTP lookup as the searcher's guards see it:
a raised exception, a non-ok / malformed / empty response, or a usable
track (`link` and `id` present, no `error` key). -/
inductive DzLookup
  | exn
  | noMatch
  | found (link : String) (id : String) (title : Option String)
      (artist : Option String)
  deriving Repr, DecidableEq

/-- Network oracle for `DeezerSearcher`: the ISRC-keyed direct lookup
(`GET /track/isrc:{isrc}`) and the quoted query search
(`GET /search?q=artist:"..." track:"..."`). -/
structure DeezerNet where
  isrcLookup : String → DzLookup
  querySearch : String → String → DzLookup

/-- A dict returned by `DeezerSearcher` (keys as built in deezer.py):
`is_search` distinguishes the generic search-URL fallback. -/
structure DzResult where
  url : String
  id : Option String
  title : Option String
  artist : Option String
  is_search : Bool
  deriving Repr, DecidableEq

namespace DeezerSearcher

/-- `_fallback_link` (deezer.py lines 84-90): the generic text-search
URL, always produced, tagged `is_search=True`. -/
def fallback_link (artist title : String) : DzResult :=
  { url := "https://www.deezer.com/search/" ++
      (artist ++ " " ++ title).replace " " "+"
    id := none
    title := none
    artist := none
    is_search := true }

/-- `_search_by_isrc` (deezer.py lines 38-57): any exception or
non-usable response yields `None`. -/
def search_by_isrc (net : DeezerNet) (isrc : String) : Option DzResult :=
  match net.isrcLookup isrc with
  | .exn => none
  | .noMatch => none
  | .found link id t a =>
    some { url := link, id := some id, title := t, artist := a, is_search := false }

/-- `_search_by_query` (deezer.py lines 59-82): a usable first hit, else
(exception, non-ok response or empty data alike) the fallback link. -/
def search_by_query (net : DeezerNet) (artist title : String) : DzResult :=
  match net.querySearch artist title with
  | .found link id t a =>
    { url := link, id := some id, title := t, artist := a, is_search := false }
  | _ => fallback_link artist title

/-- `DeezerSearcher.search` (deezer.py lines 12-36): ISRC direct lookup
first when a truthy ISRC is supplied (`if isrc:` — `None` and `""` are
falsy), else the quoted query search; the outer `except` (unreachable
here, since both helpers absorb their own errors) would also return the
fallback link. -/
def search (net : DeezerNet) (artist title : String) (isrc : Option String) :
    Option DzResult :=
  match isrc with
  | some i =>
    if i = "" then some (search_by_query net artist title)
    else
      match search_by_isrc net i with
      | some r => some r
      | none => some (search_by_query net artist title)
  | none => some (search_by_query net artist title)

end DeezerSearcher

/-! ## TidalSearcher (src/searchers/tidal.py) over
TidalExtractor.search_track (src/extractors/tidal.py lines 186-254) -/

/-- `urllib.parse.quote` with its default `safe='/'`: letters, digits,
`_ . - ~` and `/` pass through, every other UTF-8 byte becomes `%XX`
with uppercase hex. -/
def isQuoteSafe (b : Nat) : Bool :=
  (65 ≤ b && b ≤ 90) || (97 ≤ b && b ≤ 122) || (48 ≤ b && b ≤ 57) ||
  b == 95 || b == 46 || b == 45 || b == 126 || b == 47

/-- Uppercase hex digit for a nibble. -/
def hexDigit (n : Nat) : Char :=
  if n < 10 then Char.ofNat (48 + n) else Char.ofNat (55 + n)

/-- Percent-encode one byte list. -/
def quoteBytes : List Nat → String
  | [] => ""
  | b :: rest =>
    (if isQuoteSafe b then String.singleton (Char.ofNat b)
     else String.singleton '%' ++ String.singleton (hexDigit (b / 16)) ++
       String.singleton (hexDigit (b % 16))) ++ quoteBytes rest

/-- UTF-8 encoding of one character as a byte list. -/
def utf8Bytes (c : Char) : List Nat :=
  let v := c.toNat
  if v < 128 then [v]
  else if v < 2048 then [192 + v / 64, 128 + v % 64]
  else if v < 65536 then [224 + v / 4096, 128 + v / 64 % 64, 128 + v % 64]
  else [240 + v / 262144, 128 + v / 4096 % 64, 128 + v / 64 % 64, 128 + v % 64]

/-- The UTF-8 bytes of a string. -/
def strBytes (s : String) : List Nat :=
  s.data.flatMap utf8Bytes

/-- `urllib.parse.quote(s)` over the UTF-8 bytes of `s`. -/
def pyQuote (s : String) : String :=
  quoteBytes (strBytes s)

/-- Outcome of the TIDAL v2 catalog search request (including the inner
401-refresh-and-retry) as `search_track`'s guards see it: a raised
exception, a non-ok / empty / id-less response, or a first track id. -/
inductive TdSearch
  | exn
  | noMatch
  | found (id : String)
  deriving Repr, DecidableEq

/-- Network oracle for `TidalExtractor.search_track`. -/
structure TidalNet where
  /-- Whether `self.access_token` is already set or
  `_get_access_token()` succeeds (it returns `False` when no
  credentials are configured or the token request fails; it never
  raises). -/
  ensureToken : Bool
  /-- The catalog search keyed by the query string `f"{artist} {title}"`. -/
  searchOutcome : String → TdSearch

/-- A dict returned by `TidalSearcher` / `TidalExtractor.search_track`. -/
structure TdResult where
  url : String
  id : Option String
  is_search : Bool
  deriving Repr, DecidableEq

namespace TidalExtractor

/-- `TidalExtractor.search_track` (tidal.py lines 186-254): `None`
without a token; otherwise a direct track link for the first hit, and
`None` on exception, non-ok response, empty data or missing id. -/
def search_track (net : TidalNet) (artist title : String)
    (_isrc : Option String) : Option TdResult :=
  if !net.ensureToken then none
  else
    match net.searchOutcome (artist ++ " " ++ title) with
    | .found id =>
      some { url := "https://tidal.com/browse/track/" ++ id
             id := some id
             is_search := false }
    | _ => none

end TidalExtractor

namespace TidalSearcher

/-- `TidalSearcher.search` (searchers/tidal.py lines 13-46): the
extractor's direct result when it found one, else the generic
search-URL fallback.  The outer `except` would return `None`, but
`TidalExtractor.search_track` absorbs all its own errors (its token
step returns a `bool` and its request body is wrapped in `try`), so no
exception reaches the searcher. -/
def search (net : TidalNet) (artist title : String) (isrc : Option String) :
    Option TdResult :=
  match TidalExtractor.search_track net artist title isrc with
  | some r => some r
  | none =>
    some { url := "https://listen.tidal.com/search?q=" ++ pyQuote (artist ++ " " ++ title),
           id := some "search",
           is_search := true }

end TidalSearcher

/-! ## LinkEncoder (src/utils/link_encoder.py)

Strings are modelled by their UTF-8 byte lists; `:` is byte 58, and in
valid UTF-8 the byte 58 occurs exactly at the `:` characters (bytes of
multi-byte sequences are ≥ 128), so "the string contains no colon"
is exactly "58 is not among the bytes".  `=` is byte 61. -/

/-- The URL-safe base64 alphabet character for a 6-bit value
(`base64.urlsafe_b64encode`: `A-Z a-z 0-9 - _`). -/
def encChar (v : Nat) : Nat :=
  if v < 26 then 65 + v
  else if v < 52 then 97 + (v - 26)
  else if v < 62 then 48 + (v - 52)
  else if v = 62 then 45
  else 95

/-- Inverse alphabet lookup; `none` for bytes outside the alphabet
(including the pad byte 61). -/
def decChar (c : Nat) : Option Nat :=
  if 65 ≤ c ∧ c ≤ 90 then some (c - 65)
  else if 97 ≤ c ∧ c ≤ 122 then some (c - 97 + 26)
  else if 48 ≤ c ∧ c ≤ 57 then some (c - 48 + 52)
  else if c = 45 then some 62
  else if c = 95 then some 63
  else none

/-- `base64.urlsafe_b64encode` over a byte list, padding included. -/
def b64encode : List Nat → List Nat
  | [] => []
  | [b1] => [encChar (b1 / 4), encChar (b1 % 4 * 16), 61, 61]
  | [b1, b2] =>
    [encChar (b1 / 4), encChar (b1 % 4 * 16 + b2 / 16), encChar (b2 % 16 * 4), 61]
  | b1 :: b2 :: b3 :: rest =>
    encChar (b1 / 4) :: encChar (b1 % 4 * 16 + b2 / 16) ::
      encChar (b2 % 16 * 4 + b3 / 64) :: encChar (b3 % 64) :: b64encode rest

/-- `base64.urlsafe_b64decode` over a byte list: groups of four
characters, the last group possibly carrying one or two pad bytes;
`none` on a length that is not a multiple of four or a byte outside the
alphabet (Python raises `binascii.Error` there, caught by the caller). -/
def b64decode : List Nat → Option (List Nat)
  | [] => some []
  | c1 :: c2 :: c3 :: c4 :: rest =>
    if c3 = 61 ∧ c4 = 61 ∧ rest = [] then
      (decChar c1).bind fun v1 => (decChar c2).map fun v2 => [v1 * 4 + v2 / 16]
    else if c4 = 61 ∧ rest = [] then
      (decChar c1).bind fun v1 => (decChar c2).bind fun v2 =>
        (decChar c3).map fun v3 => [v1 * 4 + v2 / 16, v2 % 16 * 16 + v3 / 4]
    else
      (decChar c1).bind fun v1 => (decChar c2).bind fun v2 =>
        (decChar c3).bind fun v3 => (decChar c4).bind fun v4 =>
          (b64decode rest).map fun tail =>
            (v1 * 4 + v2 / 16) :: (v2 % 16 * 16 + v3 / 4) :: (v3 % 4 * 64 + v4) :: tail
  | _ => none

/-- `encoded_str.rstrip('=')`: drop every trailing pad byte. -/
def rstripEq (l : List Nat) : List Nat :=
  (l.reverse.dropWhile (· == 61)).reverse

/-- The re-padding step of `LinkEncoder.decode` (link_encoder.py lines
56-58): `padding = 4 - (len % 4); if padding != 4: add '=' * padding`. -/
def repad (l : List Nat) : List Nat :=
  if 4 - l.length % 4 ≠ 4 then l ++ List.replicate (4 - l.length % 4) 61 else l

/-- Python `str.split(sep)` for a one-character separator, over byte
lists (keeps empty parts; `[]` splits to `[[]]`). -/
def pySplit (sep : Nat) : List Nat → List (List Nat)
  | [] => [[]]
  | b :: rest =>
    if b = sep then [] :: pySplit sep rest
    else
      match pySplit sep rest with
      | h :: t => (b :: h) :: t
      | [] => [[b]]

namespace LinkEncoder

/-- `LinkEncoder.encode(platform, track_id, link_type)` (link_encoder.py
lines 14-38): base64 of `platform:link_type:track_id` with the `=`
padding stripped. -/
def encode (platform track_id link_type : List Nat) : List Nat :=
  rstripEq (b64encode (platform ++ 58 :: link_type ++ 58 :: track_id))

/-- `LinkEncoder.decode(encoded_id)` (link_encoder.py lines 40-73):
re-pad, base64-decode, split on `:`, require exactly three parts,
return `(platform, link_type, track_id)`. -/
def decode (encoded_id : List Nat) : Option (List Nat × List Nat × List Nat) :=
  match b64decode (repad encoded_id) with
  | none => none
  | some identifier =>
    match pySplit 58 identifier with
    | [p, lt, ti] => some (p, lt, ti)
    | _ => none

end LinkEncoder

/-! ### Base64 round-trip lemmas -/

theorem decChar_encChar : ∀ v, v < 64 → decChar (encChar v) = some v := by
  decide

theorem encChar_ne_pad : ∀ v, v < 64 → encChar v ≠ 61 := by
  decide

theorem b64decode_b64encode :
    ∀ bs : List Nat, (∀ b ∈ bs, b < 256) → b64decode (b64encode bs) = some bs := by
  intro bs
  induction bs using b64encode.induct with
  | case1 =>
    intro _
    rfl
  | case2 b1 =>
    intro h
    have hb1 : b1 < 256 := h b1 (by simp)
    have h1 : decChar (encChar (b1 / 4)) = some (b1 / 4) :=
      decChar_encChar _ (by omega)
    have h2 : decChar (encChar (b1 % 4 * 16)) = some (b1 % 4 * 16) :=
      decChar_encChar _ (by omega)
    simp [b64encode, b64decode, h1, h2]
    omega
  | case3 b1 b2 =>
    intro h
    have hb1 : b1 < 256 := h b1 (by simp)
    have hb2 : b2 < 256 := h b2 (by simp)
    have h1 : decChar (encChar (b1 / 4)) = some (b1 / 4) :=
      decChar_encChar _ (by omega)
    have h2 : decChar (encChar (b1 % 4 * 16 + b2 / 16)) = some (b1 % 4 * 16 + b2 / 16) :=
      decChar_encChar _ (by omega)
    have h3 : decChar (encChar (b2 % 16 * 4)) = some (b2 % 16 * 4) :=
      decChar_encChar _ (by omega)
    have hpad : encChar (b2 % 16 * 4) ≠ 61 := encChar_ne_pad _ (by omega)
    simp [b64encode, b64decode, h1, h2, h3, hpad]
    omega
  | case4 b1 b2 b3 rest ih =>
    intro h
    have hb1 : b1 < 256 := h b1 (by simp)
    have hb2 : b2 < 256 := h b2 (by simp)
    have hb3 : b3 < 256 := h b3 (by simp)
    have hrest : ∀ b ∈ rest, b < 256 := fun b hb => h b (by simp [hb])
    have h1 : decChar (encChar (b1 / 4)) = some (b1 / 4) :=
      decChar_encChar _ (by omega)
    have h2 : decChar (encChar (b1 % 4 * 16 + b2 / 16)) = some (b1 % 4 * 16 + b2 / 16) :=
      decChar_encChar _ (by omega)
    have h3 : decChar (encChar (b2 % 16 * 4 + b3 / 64)) = some (b2 % 16 * 4 + b3 / 64) :=
      decChar_encChar _ (by omega)
    have h4 : decChar (encChar (b3 % 64)) = some (b3 % 64) :=
      decChar_encChar _ (by omega)
    have hp3 : encChar (b2 % 16 * 4 + b3 / 64) ≠ 61 := encChar_ne_pad _ (by omega)
    have hp4 : encChar (b3 % 64) ≠ 61 := encChar_ne_pad _ (by omega)
    simp [b64encode, b64decode, h1, h2, h3, h4, hp3, hp4, ih hrest]
    constructor
    · omega
    constructor
    · omega
    · omega

/-- Shape of an encoder output: a pad-free body followed by at most two
pad bytes, total length a multiple of four. -/
theorem b64encode_shape :
    ∀ bs : List Nat, (∀ b ∈ bs, b < 256) →
      ∃ body k, b64encode bs = body ++ List.replicate k 61 ∧ k ≤ 2 ∧
        (∀ c ∈ body, c ≠ 61) ∧ (body.length + k) % 4 = 0 := by
  intro bs
  induction bs using b64encode.induct with
  | case1 =>
    intro _
    exact ⟨[], 0, rfl, by omega, by simp, by simp⟩
  | case2 b1 =>
    intro h
    have hb1 : b1 < 256 := h b1 (by simp)
    refine ⟨[encChar (b1 / 4), encChar (b1 % 4 * 16)], 2, rfl, by omega, ?_, by simp⟩
    intro c hc
    simp at hc
    rcases hc with hc | hc <;> subst hc
    · exact encChar_ne_pad _ (by omega)
    · exact encChar_ne_pad _ (by omega)
  | case3 b1 b2 =>
    intro h
    have hb1 : b1 < 256 := h b1 (by simp)
    have hb2 : b2 < 256 := h b2 (by simp)
    refine ⟨[encChar (b1 / 4), encChar (b1 % 4 * 16 + b2 / 16), encChar (b2 % 16 * 4)],
      1, rfl, by omega, ?_, by simp⟩
    intro c hc
    simp at hc
    rcases hc with hc | hc | hc <;> subst hc
    · exact encChar_ne_pad _ (by omega)
    · exact encChar_ne_pad _ (by omega)
    · exact encChar_ne_pad _ (by omega)
  | case4 b1 b2 b3 rest ih =>
    intro h
    have hb1 : b1 < 256 := h b1 (by simp)
    have hb2 : b2 < 256 := h b2 (by simp)
    have hb3 : b3 < 256 := h b3 (by simp)
    have hrest : ∀ b ∈ rest, b < 256 := fun b hb => h b (by simp [hb])
    obtain ⟨body, k, henc, hk, hnp, hlen⟩ := ih hrest
    refine ⟨encChar (b1 / 4) :: encChar (b1 % 4 * 16 + b2 / 16) ::
      encChar (b2 % 16 * 4 + b3 / 64) :: encChar (b3 % 64) :: body, k, ?_, hk, ?_, ?_⟩
    · simp [b64encode, henc]
    · intro c hc
      simp at hc
      rcases hc with hc | hc | hc | hc | hc
      · subst hc; exact encChar_ne_pad _ (by omega)
      · subst hc; exact encChar_ne_pad _ (by omega)
      · subst hc; exact encChar_ne_pad _ (by omega)
      · subst hc; exact encChar_ne_pad _ (by omega)
      · exact hnp c hc
    · simp
      omega

theorem rstripEq_append_replicate (body : List Nat) (k : Nat)
    (h : ∀ c ∈ body, c ≠ 61) :
    rstripEq (body ++ List.replicate k 61) = body := by
  unfold rstripEq
  rw [List.reverse_append, List.reverse_replicate]
  have hdropRep : List.dropWhile (· == 61) (List.replicate k 61 ++ body.reverse) =
      List.dropWhile (· == 61) body.reverse := by
    induction k with
    | zero => simp
    | succ n ihn =>
      rw [List.replicate_succ]
      simp [List.dropWhile]
  rw [hdropRep]
  have hself : List.dropWhile (· == 61) body.reverse = body.reverse := by
    cases hrev : body.reverse with
    | nil => simp
    | cons x xs =>
      have hx : x ∈ body := by
        have : x ∈ body.reverse := by rw [hrev]; simp
        simpa using this
      have : (x == 61) = false := by
        simp
        exact h x hx
      simp [List.dropWhile, this]
  rw [hself, List.reverse_reverse]

theorem repad_of_shape (body : List Nat) (k : Nat) (hk : k ≤ 2)
    (hlen : (body.length + k) % 4 = 0) :
    repad body = body ++ List.replicate k 61 := by
  unfold repad
  match k, hk with
  | 0, _ =>
    have h0 : body.length % 4 = 0 := by omega
    simp [h0]
  | 1, _ =>
    have h1 : body.length % 4 = 3 := by omega
    simp [h1]
  | 2, _ =>
    have h2 : body.length % 4 = 2 := by omega
    simp [h2]

theorem pySplit_no_sep (sep : Nat) :
    ∀ l : List Nat, sep ∉ l → pySplit sep l = [l] := by
  intro l
  induction l with
  | nil => intro _; rfl
  | cons b rest ih =>
    intro h
    have hb : b ≠ sep := fun hc => h (by simp [hc])
    have hrest : sep ∉ rest := fun hc => h (by simp [hc])
    simp [pySplit, hb, ih hrest]

theorem pySplit_append (sep : Nat) (rest : List Nat) :
    ∀ a : List Nat, sep ∉ a →
      pySplit sep (a ++ sep :: rest) = a :: pySplit sep rest := by
  intro a
  induction a with
  | nil => intro _; simp [pySplit]
  | cons b a' ih =>
    intro h
    have hb : b ≠ sep := fun hc => h (by simp [hc])
    have ha : sep ∉ a' := fun hc => h (by simp [hc])
    simp [pySplit, hb, ih ha]

/-! ## Association-list and step lemmas -/

theorem mem_upsert {v w : α} (k : String) (l : List (String × α))
    (h : (p, v) ∈ upsert k w l) : (p = k ∧ v = w) ∨ (p, v) ∈ l := by
  induction l with
  | nil =>
    simp [upsert] at h
    exact Or.inl h
  | cons hd tl ih =>
    rw [upsert] at h
    by_cases hk : hd.1 = k
    · simp [hk] at h
      rcases h with ⟨h1, h2⟩ | h
      · exact Or.inl ⟨h1, h2⟩
      · exact Or.inr (by simp [h])
    · simp [hk] at h
      rcases h with h | h
      · exact Or.inr (by simp [h])
      · rcases ih h with h' | h'
        · exact Or.inl h'
        · exact Or.inr (by simp [h'])

theorem lookup_upsert_self (k : String) (w : α) (l : List (String × α)) :
    List.lookup k (upsert k w l) = some w := by
  induction l with
  | nil => simp [upsert, List.lookup]
  | cons hd tl ih =>
    rw [upsert]
    by_cases hk : hd.1 = k
    · simp [hk, List.lookup]
    · have hne : (k == hd.1) = false :=
        beq_eq_false_iff_ne.mpr fun hc => hk hc.symm
      simp [hk, List.lookup, hne, ih]

theorem lookup_upsert_other (k q : String) (w : α) (l : List (String × α))
    (hq : q ≠ k) : List.lookup q (upsert k w l) = List.lookup q l := by
  have hqk : (q == k) = false := beq_eq_false_iff_ne.mpr hq
  induction l with
  | nil => simp [upsert, List.lookup, hqk]
  | cons hd tl ih =>
    rw [upsert]
    by_cases hk : hd.1 = k
    · subst hk
      simp [List.lookup, hqk]
    · cases hqe : (q == hd.1) <;> simp [hk, List.lookup, hqe, ih]

theorem mem_stepOpt {mk : α → Link} {o : Option α} {l : List (String × Link)}
    (h : (p, v) ∈ stepOpt key mk o l) :
    (p = key ∧ ∃ r, o = some r ∧ v = mk r) ∨ (p, v) ∈ l := by
  cases o with
  | none => exact Or.inr h
  | some r =>
    rcases mem_upsert key l h with ⟨h1, h2⟩ | h
    · exact Or.inl ⟨h1, r, rfl, h2⟩
    · exact Or.inr h

theorem lookup_stepOpt_self {mk : α → Link} {o : Option α}
    {l : List (String × Link)} (r : α) (ho : o = some r) :
    List.lookup key (stepOpt key mk o l) = some (mk r) := by
  subst ho
  exact lookup_upsert_self key (mk r) l

theorem lookup_stepOpt_other {mk : α → Link} {o : Option α}
    {l : List (String × Link)} (hq : q ≠ key) :
    List.lookup q (stepOpt key mk o l) = List.lookup q l := by
  cases o with
  | none => rfl
  | some r => exact lookup_upsert_other key q (mk r) l hq

theorem mem_stepYt {o : Option YtResult} {l : List (String × Link)}
    (h : (p, v) ∈ stepYt o l) :
    (p = "youtubeMusic" ∧ ∃ r, o = some r ∧
      v = ⟨r.url, "YOUTUBE::VIDEO::" ++ r.video_id.getD "unknown"⟩) ∨
    (p = "youtube" ∧ ∃ r yu, o = some r ∧ r.youtube_url = some yu ∧
      v = ⟨yu, "YOUTUBE::VIDEO::" ++ r.video_id.getD "unknown"⟩) ∨
    (p, v) ∈ l := by
  cases o with
  | none => exact Or.inr (Or.inr h)
  | some r =>
    rw [stepYt] at h
    cases hyu : r.youtube_url with
    | none =>
      rw [hyu] at h
      rcases mem_upsert _ _ h with ⟨h1, h2⟩ | h
      · exact Or.inl ⟨h1, r, rfl, h2⟩
      · exact Or.inr (Or.inr h)
    | some yu =>
      rw [hyu] at h
      rcases mem_upsert _ _ h with ⟨h1, h2⟩ | h
      · exact Or.inr (Or.inl ⟨h1, r, yu, rfl, hyu, h2⟩)
      · rcases mem_upsert _ _ h with ⟨h1, h2⟩ | h
        · exact Or.inl ⟨h1, r, rfl, h2⟩
        · exact Or.inr (Or.inr h)

theorem lookup_stepYt_youtube {r : YtResult} {yu : String}
    {l : List (String × Link)} (ho : o = some r) (hyu : r.youtube_url = some yu) :
    List.lookup "youtube" (stepYt o l) =
      some ⟨yu, "YOUTUBE::VIDEO::" ++ r.video_id.getD "unknown"⟩ := by
  subst ho
  rw [stepYt, hyu]
  exact lookup_upsert_self _ _ _

theorem lookup_stepYt_other {o : Option YtResult} {l : List (String × Link)}
    (h1 : q ≠ "youtubeMusic") (h2 : q ≠ "youtube") :
    List.lookup q (stepYt o l) = List.lookup q l := by
  cases o with
  | none => rfl
  | some r =>
    rw [stepYt]
    cases hyu : r.youtube_url with
    | none => simp [lookup_upsert_other _ _ _ _ h1]
    | some yu =>
      rw [lookup_upsert_other _ _ _ _ h2, lookup_upsert_other _ _ _ _ h1]

theorem mem_spotifyLinksStep {md : Metadata} {cover retry : Option Metadata}
    {l : List (String × Link)}
    (h : (p, v) ∈ spotifyLinksStep platform md cover retry l) :
    (p = "spotify" ∧ ∃ rid rurl, v = ⟨rurl, "SPOTIFY::TRACK::" ++ rid⟩) ∨
    (p, v) ∈ l := by
  rw [spotifyLinksStep.eq_def] at h
  by_cases hps : platform = "spotify"
  · simp [hps] at h
    rcases mem_upsert _ _ h with ⟨h1, h2⟩ | h
    · exact Or.inl ⟨h1, md.id, md.url, h2⟩
    · exact Or.inr h
  · simp [hps] at h
    cases cover with
    | some r =>
      rcases mem_upsert _ _ h with ⟨h1, h2⟩ | h
      · exact Or.inl ⟨h1, r.id, r.url, h2⟩
      · exact Or.inr h
    | none =>
      cases retry with
      | some r =>
        rcases mem_upsert _ _ h with ⟨h1, h2⟩ | h
        · exact Or.inl ⟨h1, r.id, r.url, h2⟩
        · exact Or.inr h
      | none => exact Or.inr h

theorem lookup_spotifyLinksStep_other {md : Metadata}
    {cover retry : Option Metadata} {l : List (String × Link)}
    (hq : q ≠ "spotify") :
    List.lookup q (spotifyLinksStep platform md cover retry l) =
      List.lookup q l := by
  rw [spotifyLinksStep.eq_def]
  by_cases hps : platform = "spotify"
  · simp [hps, lookup_upsert_other _ _ _ _ hq]
  · simp [hps]
    cases cover with
    | some r => exact lookup_upsert_other _ _ _ _ hq
    | none =>
      cases retry with
      | some r => exact lookup_upsert_other _ _ _ _ hq
      | none => rfl

/-- Which (key, entry) pairs can occur in the links dict of
`_process_music_link`: the source platform's initial verified entry, or
one of the per-platform searcher entries with their exact
entityUniqueId shapes. -/
theorem mem_mainLinks (env : AppEnv) (platform : String) (md : Metadata)
    (cover : Option Metadata) (a t : String) (i : Option String)
    {p : String} {v : Link}
    (h : (p, v) ∈ (mainLinks env platform md cover a t i).1) :
    (p = platform ∧ v = ⟨md.url, pyUpper platform ++ "::TRACK::" ++ md.id⟩) ∨
    (p = "spotify" ∧ ∃ rid rurl, v = ⟨rurl, "SPOTIFY::TRACK::" ++ rid⟩) ∨
    (p = "youtubeMusic" ∧ ∃ vid rurl, v = ⟨rurl, "YOUTUBE::VIDEO::" ++ vid⟩) ∨
    (p = "youtube" ∧ ∃ vid rurl, v = ⟨rurl, "YOUTUBE::VIDEO::" ++ vid⟩) ∨
    (p = "deezer" ∧ ∃ rid rurl, v = ⟨rurl, "DEEZER::TRACK::" ++ rid⟩) ∨
    (p = "tidal" ∧ ∃ rid rurl, v = ⟨rurl, "TIDAL::TRACK::" ++ rid⟩) ∨
    (p = "appleMusic" ∧ ∃ rurl, v = ⟨rurl, "APPLEMUSIC::SONG::unknown"⟩) ∨
    (p = "amazonMusic" ∧ ∃ rurl, v = ⟨rurl, "AMAZONMUSIC::SONG::unknown"⟩) := by
  simp only [mainLinks] at h
  rcases mem_stepOpt h with ⟨hp, r, _, hv⟩ | h
  · exact Or.inr (Or.inr (Or.inr (Or.inr (Or.inr (Or.inr (Or.inr
      ⟨hp, r.url, hv⟩))))))
  rcases mem_stepOpt h with ⟨hp, r, _, hv⟩ | h
  · exact Or.inr (Or.inr (Or.inr (Or.inr (Or.inr (Or.inr (Or.inl
      ⟨hp, r.url, hv⟩))))))
  rcases mem_stepOpt h with ⟨hp, r, _, hv⟩ | h
  · exact Or.inr (Or.inr (Or.inr (Or.inr (Or.inr (Or.inl
      ⟨hp, r.id.getD "unknown", r.url, hv⟩)))))
  rcases mem_stepOpt h with ⟨hp, r, _, hv⟩ | h
  · exact Or.inr (Or.inr (Or.inr (Or.inr (Or.inl
      ⟨hp, r.id.getD "unknown", r.url, hv⟩))))
  rcases mem_stepYt h with ⟨hp, r, _, hv⟩ | ⟨hp, r, yu, _, _, hv⟩ | h
  · exact Or.inr (Or.inr (Or.inl ⟨hp, r.video_id.getD "unknown", r.url, hv⟩))
  · exact Or.inr (Or.inr (Or.inr (Or.inl
      ⟨hp, r.video_id.getD "unknown", yu, hv⟩)))
  rcases mem_spotifyLinksStep h with ⟨hp, rid, rurl, hv⟩ | h
  · exact Or.inr (Or.inl ⟨hp, rid, rurl, hv⟩)
  by_cases hps : platform = "spotify"
  · simp [hps] at h
  · simp only [hps, ne_eq, not_false_iff, if_true] at h
    rcases mem_upsert _ _ h with ⟨hp, hv⟩ | h
    · exact Or.inl ⟨hp, hv⟩
    · simp at h

/-! ## Claim theorems -/

/-- An environment in which every outbound call fails or finds nothing;
concrete environments below override individual fields. -/
def envNone : AppEnv :=
  { parse := fun _ => none
    spotifyMeta := fun _ => none
    scrapeTidal := fun _ => none
    tidalApiMeta := fun _ => none
    scrapeApple := fun _ => none
    scrapeAmazon := fun _ => none
    deezerExtract := fun _ => none
    youtubeExtract := fun _ => none
    spotifySearch := fun _ _ _ => none
    spotifySearchRetry := fun _ _ _ => none
    youtubeSearch := fun _ _ => none
    deezerSearch := fun _ _ _ => none
    tidalSearch := fun _ _ _ => none
    appleSearch := fun _ _ => none
    amazonSearch := fun _ _ => none }

/-- C10: `ResponseBuilder.build_response` is total on partial input (the
embedding is a total function once every link entry carries its `url`
key, the one key the code reads unconditionally): the top-level
`entityUniqueId` substitutes "unknown" for a missing metadata id,
the entity substitutes "Unknown Title" / "Unknown Artist" for missing
title/artist, a link entry lacking its own `entityUniqueId` is assigned
the source entity id, and the entity's `platforms` list is exactly the
keys of the links map. -/
theorem C10_build_response_total (metadata : ResponseBuilder.BMeta)
    (links : List (String × ResponseBuilder.BLink)) (source_platform : String) :
    (ResponseBuilder.build_response metadata links source_platform).entityUniqueId =
      pyUpper source_platform ++ "::TRACK::" ++ metadata.id.getD "unknown" ∧
    (ResponseBuilder.build_response metadata links source_platform).entity.title =
      metadata.title.getD "Unknown Title" ∧
    (ResponseBuilder.build_response metadata links source_platform).entity.artistName =
      metadata.artist.getD "Unknown Artist" ∧
    (ResponseBuilder.build_response metadata links source_platform).entity.platforms =
      links.map Prod.fst ∧
    (∀ p l, (p, l) ∈ links → l.entityUniqueId = none →
      (p, (⟨l.url,
        (ResponseBuilder.build_response metadata links source_platform).entityUniqueId,
        l.nativeAppUri⟩ : ResponseBuilder.OutLink)) ∈
        (ResponseBuilder.build_response metadata links source_platform).linksByPlatform) := by
  refine ⟨rfl, rfl, rfl, rfl, ?_⟩
  intro p l hm he
  have : (p, l) ∈ links := hm
  refine List.mem_map.mpr ⟨(p, l), hm, ?_⟩
  simp [ResponseBuilder.build_response, he]

/-- Witness for C10: a one-link map whose entry lacks its own
entityUniqueId, with every metadata key missing. -/
theorem C10_build_response_total_witness :
    (ResponseBuilder.build_response ⟨none, none, none, none, none⟩
      [("deezer", ⟨"https://dz", none, none⟩)] "tidal").entity.title =
      "Unknown Title" ∧
    ("deezer", (⟨"https://dz", "TIDAL::TRACK::unknown", none⟩ :
        ResponseBuilder.OutLink)) ∈
      (ResponseBuilder.build_response ⟨none, none, none, none, none⟩
        [("deezer", ⟨"https://dz", none, none⟩)] "tidal").linksByPlatform := by
  obtain ⟨h1, h2, h3, h4, h5⟩ := C10_build_response_total
    ⟨none, none, none, none, none⟩ [("deezer", ⟨"https://dz", none, none⟩)] "tidal"
  have hid : (ResponseBuilder.build_response ⟨none, none, none, none, none⟩
      [("deezer", ⟨"https://dz", none, none⟩)] "tidal").entityUniqueId =
      "TIDAL::TRACK::unknown" := h1.trans (by decide)
  have h6 := h5 "deezer" ⟨"https://dz", none, none⟩ (by simp) rfl
  rw [hid] at h6
  exact ⟨h2, h6⟩

/-- C9: Share-link encoding round-trips: for every platform, link_type
and track_id (modelled as UTF-8 byte lists) none of which contains the
':' character (byte 58), `LinkEncoder.decode (LinkEncoder.encode
platform track_id link_type)` returns exactly
`(platform, link_type, track_id)`, even though `encode` strips the
base64 '=' padding. -/
theorem C9_link_encoder_roundtrip
    (platform track_id link_type : List Nat)
    (hplat : ∀ b ∈ platform, b < 256) (hid : ∀ b ∈ track_id, b < 256)
    (hltb : ∀ b ∈ link_type, b < 256)
    (hc1 : 58 ∉ platform) (hc2 : 58 ∉ link_type) (hc3 : 58 ∉ track_id) :
    LinkEncoder.decode (LinkEncoder.encode platform track_id link_type) =
      some (platform, link_type, track_id) := by
  have hall : ∀ b ∈ platform ++ 58 :: link_type ++ 58 :: track_id, b < 256 := by
    intro b hb
    simp at hb
    rcases hb with h | h | h | h | h
    · exact hplat b h
    · omega
    · exact hltb b h
    · omega
    · exact hid b h
  obtain ⟨body, k, henc, hk, hnp, hlen⟩ :=
    b64encode_shape (platform ++ 58 :: link_type ++ 58 :: track_id) hall
  have hdec :
      b64decode (repad (rstripEq (b64encode
        (platform ++ 58 :: link_type ++ 58 :: track_id)))) =
      some (platform ++ 58 :: link_type ++ 58 :: track_id) := by
    rw [henc, rstripEq_append_replicate _ _ hnp, repad_of_shape _ _ hk hlen, ← henc,
      b64decode_b64encode _ hall]
  have hsplit : pySplit 58 (platform ++ 58 :: (link_type ++ 58 :: track_id)) =
      [platform, link_type, track_id] := by
    rw [pySplit_append 58 (link_type ++ 58 :: track_id) platform hc1,
      pySplit_append 58 track_id link_type hc2, pySplit_no_sep 58 track_id hc3]
  unfold LinkEncoder.encode LinkEncoder.decode
  rw [hdec]
  simp [hsplit]

/-- Witness for C9 at the concrete input platform="a", track_id="1",
link_type="t" (bytes 97, 49, 116). -/
theorem C9_link_encoder_roundtrip_witness :
    LinkEncoder.decode (LinkEncoder.encode [97] [49] [116]) =
      some ([97], [116], [49]) :=
  C9_link_encoder_roundtrip [97] [49] [116]
    (by decide) (by decide) (by decide) (by decide) (by decide) (by decide)

/-- C5: when the secondary Spotify cover search fails entirely (returns
no result), the metadata passed on to aggregation equals the primary
extractor's metadata unchanged in every field, and the resolution still
succeeds, with the response built from the untouched metadata. -/
theorem C5_reconciler_nonDestructive (env : AppEnv)
    (music_url platform trackId : String) (md0 : Metadata)
    (hp : env.parse music_url = some (platform, trackId))
    (hx : extractMeta env platform trackId = some md0)
    (hs : env.spotifySearch md0.artist md0.title md0.isrc = none) :
    reconcile md0 (env.spotifySearch md0.artist md0.title md0.isrc) = md0 ∧
    ∃ out, processMusicLink env music_url = .ok out ∧
      out.response.entity.title = md0.title ∧
      out.response.entity.artistName = md0.artist ∧
      out.response.entity.thumbnailUrl = md0.thumbnail := by
  refine ⟨by rw [hs]; rfl, ?_⟩
  simp only [processMusicLink, hp, hx, hs]
  exact ⟨_, rfl, rfl, rfl, rfl⟩

/-- Witness for C5: a Deezer-sourced track with the cover search
failing. -/
theorem C5_reconciler_nonDestructive_witness :
    ∃ out,
      processMusicLink
        { envNone with
          parse := fun _ => some ("deezer", "77")
          deezerExtract := fun _ =>
            some ⟨"77", "Song", "Artist", none, some "thumb0", "https://dz/77"⟩ }
        "https://www.deezer.com/track/77" = .ok out ∧
      out.response.entity.thumbnailUrl = some "thumb0" := by
  obtain ⟨-, out, hok, -, -, hth⟩ := C5_reconciler_nonDestructive
    { envNone with
      parse := fun _ => some ("deezer", "77")
      deezerExtract := fun _ =>
        some ⟨"77", "Song", "Artist", none, some "thumb0", "https://dz/77"⟩ }
    "https://www.deezer.com/track/77" "deezer" "77"
    ⟨"77", "Song", "Artist", none, some "thumb0", "https://dz/77"⟩ rfl rfl rfl
  exact ⟨out, hok, hth⟩

/-- C3 (amended): the secondary Spotify search is performed for every
source platform — including when the source platform is Spotify itself
(src/app.py line 450 runs unconditionally): on every successful
extraction the pipeline's spotify-search call log contains the call
with the primary metadata's (artist, title, isrc). -/
theorem C3_secondary_search_always_performed (env : AppEnv)
    (music_url platform trackId : String) (md0 : Metadata)
    (hp : env.parse music_url = some (platform, trackId))
    (hx : extractMeta env platform trackId = some md0) :
    ∃ out, processMusicLink env music_url = .ok out ∧
      (md0.artist, md0.title, md0.isrc) ∈ out.spotifyCalls := by
  simp only [processMusicLink, hp, hx]
  exact ⟨_, rfl, List.mem_cons_self _ _⟩

/-- A Spotify-sourced request environment: the URL parses to the
spotify platform and the extractor returns its metadata. -/
def envSpotifySrc : AppEnv :=
  { envNone with
    parse := fun _ => some ("spotify", "track1")
    spotifyMeta := fun _ =>
      some ⟨"track1", "Song", "Artist", some "ISRC1", some "cover1",
        "https://open.spotify.com/track/track1"⟩ }

/-- The spotify-search call log of a pipeline outcome. -/
def spotifyCallsOf (e : Except (String × Nat) PipeOut) : List SpotifyCall :=
  match e with
  | .ok o => o.spotifyCalls
  | .error _ => []

/-- Counterexample to C3 as stated: for a Spotify-sourced resolution the
secondary Spotify lookup is NOT skipped — the call log contains exactly
the secondary search with the extractor's (artist, title, isrc). -/
theorem C3_counterexample :
    envSpotifySrc.parse "https://open.spotify.com/track/track1" =
      some ("spotify", "track1") ∧
    spotifyCallsOf
        (processMusicLink envSpotifySrc "https://open.spotify.com/track/track1") =
      [("Artist", "Song", some "ISRC1")] :=
  ⟨rfl, rfl⟩

/-- Witness for C3 at the concrete Spotify-sourced environment. -/
theorem C3_secondary_search_always_performed_witness :
    ∃ out,
      processMusicLink envSpotifySrc "https://open.spotify.com/track/track1" =
        .ok out ∧
      ("Artist", "Song", some "ISRC1") ∈ out.spotifyCalls :=
  C3_secondary_search_always_performed envSpotifySrc
    "https://open.spotify.com/track/track1" "spotify" "track1"
    ⟨"track1", "Song", "Artist", some "ISRC1", some "cover1",
      "https://open.spotify.com/track/track1"⟩ rfl rfl

/-- C4 (amended): the ISRC backfill from the secondary Spotify search
happens only inside the thumbnail guard: when the secondary result has
a truthy thumbnail, a missing primary ISRC is backfilled from a truthy
secondary ISRC (and the thumbnail overridden); when the secondary
result's thumbnail is not truthy, the metadata — ISRC included — is
left wholly unchanged even if the secondary search returned an ISRC. -/
theorem C4_isrc_backfill_amended (md r : Metadata) :
    (truthy r.thumbnail = true → truthy md.isrc = false → truthy r.isrc = true →
      (reconcile md (some r)).isrc = r.isrc ∧
      (reconcile md (some r)).thumbnail = r.thumbnail) ∧
    (truthy r.thumbnail = false → reconcile md (some r) = md) := by
  constructor
  · intro h1 h2 h3
    simp [reconcile, h1, h2, h3]
  · intro h1
    simp [reconcile, h1]

/-- Witness for C4 at concrete metadata values. -/
theorem C4_isrc_backfill_amended_witness :
    (reconcile ⟨"d1", "S", "A", none, none, "u1"⟩
      (some ⟨"s1", "S", "A", some "USX1", some "th1", "u2"⟩)).isrc =
      some "USX1" := by
  have h := (C4_isrc_backfill_amended ⟨"d1", "S", "A", none, none, "u1"⟩
    ⟨"s1", "S", "A", some "USX1", some "th1", "u2"⟩).1 rfl rfl rfl
  exact h.1

/-- Counterexample to C4 as stated: the secondary search succeeds and
returns an ISRC (here "USX123") while the primary lacked one, yet
because the secondary result has no thumbnail the ISRC is NOT
backfilled — the reconciled metadata still has no ISRC. -/
theorem C4_counterexample :
    (⟨"d1", "Song", "Artist", none, some "thumb0",
        "https://dz/d1"⟩ : Metadata).isrc = none ∧
    (⟨"s1", "Song", "Artist", some "USX123", none,
        "https://sp/s1"⟩ : Metadata).isrc = some "USX123" ∧
    (reconcile ⟨"d1", "Song", "Artist", none, some "thumb0", "https://dz/d1"⟩
      (some ⟨"s1", "Song", "Artist", some "USX123", none,
        "https://sp/s1"⟩)).isrc = none :=
  ⟨rfl, rfl, rfl⟩

/-- C6: the Deezer searcher and the TIDAL searcher never return null:
for every network behaviour and every (artist, title, optional isrc)
they produce a result, degrading to the generic search-URL fallback
when no verified match is obtained (Deezer: ISRC lookup failed or
skipped and the quoted query found nothing; TIDAL: the extractor search
produced nothing, including when no credentialed client is available). -/
theorem C6_searchers_never_null (netD : DeezerNet) (netT : TidalNet)
    (artist title : String) (isrc : Option String) :
    (DeezerSearcher.search netD artist title isrc).isSome = true ∧
    (TidalSearcher.search netT artist title isrc).isSome = true ∧
    (TidalExtractor.search_track netT artist title isrc = none →
      TidalSearcher.search netT artist title isrc =
        some ⟨"https://listen.tidal.com/search?q=" ++
          pyQuote (artist ++ " " ++ title), some "search", true⟩) ∧
    (∀ s, isrc = some s → s ≠ "" →
      DeezerSearcher.search_by_isrc netD s = none →
      DeezerSearcher.search netD artist title isrc =
        some (DeezerSearcher.search_by_query netD artist title)) ∧
    (isrc = none →
      DeezerSearcher.search netD artist title isrc =
        some (DeezerSearcher.search_by_query netD artist title)) := by
  refine ⟨?_, ?_, ?_, ?_, ?_⟩
  · cases isrc with
    | none => rfl
    | some s =>
      by_cases hse : s = ""
      · simp [DeezerSearcher.search, hse]
      · cases h : DeezerSearcher.search_by_isrc netD s <;>
          simp [DeezerSearcher.search, hse, h]
  · rw [TidalSearcher.search]
    cases h : TidalExtractor.search_track netT artist title isrc <;> simp [h]
  · intro h
    rw [TidalSearcher.search, h]
  · intro s hs hse h
    subst hs
    simp [DeezerSearcher.search, hse, h]
  · intro hs
    subst hs
    rfl

/-- Witness for C6 at a concrete network (every lookup erroring) and a
client with no credentials. -/
theorem C6_searchers_never_null_witness :
    (DeezerSearcher.search ⟨fun _ => .exn, fun _ _ => .exn⟩ "A" "T"
      (some "ISRC9")).isSome = true ∧
    TidalSearcher.search ⟨false, fun _ => .exn⟩ "A" "T" (some "ISRC9") =
      some ⟨"https://listen.tidal.com/search?q=A%20T", some "search", true⟩ := by
  obtain ⟨h1, -, h3, -, -⟩ := C6_searchers_never_null
    ⟨fun _ => .exn, fun _ _ => .exn⟩ ⟨false, fun _ => .exn⟩ "A" "T" (some "ISRC9")
  refine ⟨h1, ?_⟩
  rw [h3 rfl]
  decide

/-- C7 (amended): the Spotify search strategy is the fixed two-step
order: with an ISRC it searches by ISRC first and commits to any
non-empty item list (fetching that track's metadata, with no fallback
to the text step even if that fetch returns nothing); only when the
ISRC search returns an empty list, or no ISRC was supplied, does it run
the free-text query `artist:<artist> track:<title>`, committing to its
first item unconditionally; an empty text-step result yields no result.
(It can also return no result when a search call raises or when the
follow-up metadata fetch of the committed track fails.) -/
theorem C7_spotify_search_strategy (net : SpotifyNet)
    (artist title : String) (isrc : Option String) :
    (∀ s tr trs, isrc = some s → s ≠ "" →
      net.search ("isrc:" ++ s) = .ok (tr :: trs) →
      SpotifyExtractor.search_track net artist title isrc = net.trackMeta tr) ∧
    (∀ s, isrc = some s → s ≠ "" → net.search ("isrc:" ++ s) = .ok [] →
      SpotifyExtractor.search_track net artist title isrc =
        SpotifyExtractor.textStep net artist title) ∧
    (isrc = none →
      SpotifyExtractor.search_track net artist title isrc =
        SpotifyExtractor.textStep net artist title) ∧
    (∀ tr trs,
      net.search ("artist:" ++ artist ++ " track:" ++ title) = .ok (tr :: trs) →
      SpotifyExtractor.textStep net artist title = net.trackMeta tr) ∧
    (net.search ("artist:" ++ artist ++ " track:" ++ title) = .ok [] →
      SpotifyExtractor.textStep net artist title = none) := by
  refine ⟨?_, ?_, ?_, ?_, ?_⟩
  · intro s tr trs hs hse hq
    subst hs
    simp [SpotifyExtractor.search_track, hse, hq]
  · intro s hs hse hq
    subst hs
    simp [SpotifyExtractor.search_track, hse, hq]
  · intro hs
    subst hs
    rfl
  · intro tr trs hq
    simp [SpotifyExtractor.textStep, hq]
  · intro hq
    simp [SpotifyExtractor.textStep, hq]

/-- A search network on which the ISRC step yields a hit whose metadata
fetch fails, while the text step would have yielded a usable hit. -/
def netIsrcHitNoMeta : SpotifyNet :=
  { search := fun q => if q = "isrc:XX" then .ok ["hit1"] else .ok ["hit2"]
    trackMeta := fun tr =>
      if tr = "hit2" then
        some ⟨"hit2", "Song", "Artist", some "XX", some "th", "https://sp/hit2"⟩
      else none }

/-- Counterexample to C7 as stated (its final clause): `search_track`
returns no result even though the ISRC step yielded a non-empty result
(and the text step would have yielded one too) — the follow-up metadata
fetch of the committed ISRC hit failed, and the code does not fall back. -/
theorem C7_counterexample :
    SpotifyExtractor.search_track netIsrcHitNoMeta "A" "T" (some "XX") = none ∧
    netIsrcHitNoMeta.search "isrc:XX" = .ok ["hit1"] ∧
    (SpotifyExtractor.textStep netIsrcHitNoMeta "A" "T").isSome = true :=
  ⟨rfl, rfl, rfl⟩

/-- Witness for C7: the commit and fallback clauses applied at the
concrete network above. -/
theorem C7_spotify_search_strategy_witness :
    SpotifyExtractor.search_track netIsrcHitNoMeta "A" "T" (some "XX") =
      netIsrcHitNoMeta.trackMeta "hit1" ∧
    SpotifyExtractor.search_track netIsrcHitNoMeta "A" "T" none =
      SpotifyExtractor.textStep netIsrcHitNoMeta "A" "T" := by
  obtain ⟨h1, -, h3, -, -⟩ :=
    C7_spotify_search_strategy netIsrcHitNoMeta "A" "T" (some "XX")
  obtain ⟨-, -, h3n, -, -⟩ :=
    C7_spotify_search_strategy netIsrcHitNoMeta "A" "T" none
  exact ⟨h1 "XX" "hit1" [] rfl (by decide) rfl, h3n rfl⟩

/-- C1 (amended): for a non-Spotify source platform the links dict's
final entry for the source platform is NOT the verified extractor link:
the Searcher-produced link for that platform is assigned later and
overwrites the source entry (Python dict assignment), search fallbacks
included — the Searcher result takes precedence, for every source
platform that has a searcher (tidal, deezer, appleMusic, amazonMusic,
and youtube through the plain-video twin). -/
theorem C1_searcher_overwrites_source (env : AppEnv) (md : Metadata)
    (cover : Option Metadata) (a t : String) (i : Option String) :
    (∀ r, env.deezerSearch a t i = some r →
      List.lookup "deezer" (mainLinks env "deezer" md cover a t i).1 =
        some ⟨r.url, "DEEZER::TRACK::" ++ r.id.getD "unknown"⟩) ∧
    (∀ r, env.tidalSearch a t i = some r →
      List.lookup "tidal" (mainLinks env "tidal" md cover a t i).1 =
        some ⟨r.url, "TIDAL::TRACK::" ++ r.id.getD "unknown"⟩) ∧
    (∀ r, env.appleSearch a t = some r →
      List.lookup "appleMusic" (mainLinks env "appleMusic" md cover a t i).1 =
        some ⟨r.url, "APPLEMUSIC::SONG::unknown"⟩) ∧
    (∀ r, env.amazonSearch a t = some r →
      List.lookup "amazonMusic" (mainLinks env "amazonMusic" md cover a t i).1 =
        some ⟨r.url, "AMAZONMUSIC::SONG::unknown"⟩) ∧
    (∀ r yu, env.youtubeSearch a t = some r → r.youtube_url = some yu →
      List.lookup "youtube" (mainLinks env "youtube" md cover a t i).1 =
        some ⟨yu, "YOUTUBE::VIDEO::" ++ r.video_id.getD "unknown"⟩) := by
  refine ⟨?_, ?_, ?_, ?_, ?_⟩
  · intro r hr
    simp only [mainLinks]
    rw [lookup_stepOpt_other (by decide), lookup_stepOpt_other (by decide),
      lookup_stepOpt_other (by decide), lookup_stepOpt_self r hr]
  · intro r hr
    simp only [mainLinks]
    rw [lookup_stepOpt_other (by decide), lookup_stepOpt_other (by decide),
      lookup_stepOpt_self r hr]
  · intro r hr
    simp only [mainLinks]
    rw [lookup_stepOpt_other (by decide), lookup_stepOpt_self r hr]
  · intro r hr
    simp only [mainLinks]
    rw [lookup_stepOpt_self r hr]
  · intro r yu hr hyu
    simp only [mainLinks]
    rw [lookup_stepOpt_other (by decide), lookup_stepOpt_other (by decide),
      lookup_stepOpt_other (by decide), lookup_stepOpt_other (by decide),
      lookup_stepYt_youtube hr hyu]

/-- An Apple-Music-sourced request: the scrape extractor verifies the
native id 123, every search except Apple Music's finds nothing, and the
Apple Music searcher returns its (always-fallback) search link. -/
def envApple : AppEnv :=
  { envNone with
    parse := fun _ => some ("appleMusic", "123")
    scrapeApple := fun _ =>
      some ⟨"123", "Test Song", "Test Artist", none, none,
        "https://music.apple.com/song/test/123"⟩
    appleSearch := fun _ _ =>
      some ⟨"https://music.apple.com/search?term=Test+Artist+Test+Song", none⟩ }

/-- The `linksByPlatform` table of a pipeline outcome. -/
def linksByPlatformOf (e : Except (String × Nat) PipeOut) :
    List (String × ResponseBuilder.OutLink) :=
  match e with
  | .ok o => o.response.linksByPlatform
  | .error _ => []

/-- Counterexample to C1 as stated: an Apple-Music-sourced resolution
whose final entry for the source platform is the searcher's search
fallback (url is a search page, entityUniqueId
"APPLEMUSIC::SONG::unknown"), not the link built from the verified
native id 123. -/
theorem C1_counterexample :
    List.lookup "appleMusic"
        (linksByPlatformOf (processMusicLink envApple
          "https://music.apple.com/song/test/123")) =
      some ⟨"https://music.apple.com/search?term=Test+Artist+Test+Song",
        "APPLEMUSIC::SONG::unknown", none⟩ ∧
    "APPLEMUSIC::SONG::unknown" ≠ "APPLEMUSIC::TRACK::123" ∧
    "https://music.apple.com/search?term=Test+Artist+Test+Song" ≠
      "https://music.apple.com/song/test/123" := by
  refine ⟨by decide, by decide, by decide⟩

/-- Witness for C1 at the concrete Apple-Music-sourced environment. -/
theorem C1_searcher_overwrites_source_witness :
    List.lookup "appleMusic"
        (mainLinks envApple "appleMusic"
          ⟨"123", "Test Song", "Test Artist", none, none,
            "https://music.apple.com/song/test/123"⟩
          none "Test Artist" "Test Song" none).1 =
      some ⟨"https://music.apple.com/search?term=Test+Artist+Test+Song",
        "APPLEMUSIC::SONG::unknown"⟩ := by
  have h := (C1_searcher_overwrites_source envApple
    ⟨"123", "Test Song", "Test Artist", none, none,
      "https://music.apple.com/song/test/123"⟩
    none "Test Artist" "Test Song" none).2.2.1
    ⟨"https://music.apple.com/search?term=Test+Artist+Test+Song", none⟩ rfl
  exact h

/-- C2 (amended): every entry of the response's link table carries an
entityUniqueId of the shape TAG::KIND::id, but KIND is not uniformly
TRACK: the source platform's own (pre-overwrite) entry and the Spotify,
Deezer and TIDAL entries use UPPER(platform)::TRACK::(native id or
"unknown"); the Apple Music and Amazon Music searcher entries use the
literal UPPER(platform)::SONG::unknown; and both the youtubeMusic and
youtube entries use YOUTUBE::VIDEO::(video id or "unknown"). -/
theorem C2_entity_id_shapes (env : AppEnv) (music_url platform trackId : String)
    (out : PipeOut)
    (hp : env.parse music_url = some (platform, trackId))
    (h : processMusicLink env music_url = .ok out) :
    ∀ p e, (p, e) ∈ out.response.linksByPlatform →
      (p = platform ∧ ∃ nid,
        e.entityUniqueId = pyUpper platform ++ "::TRACK::" ++ nid) ∨
      (p = "spotify" ∧ ∃ nid, e.entityUniqueId = "SPOTIFY::TRACK::" ++ nid) ∨
      (p = "youtubeMusic" ∧ ∃ nid, e.entityUniqueId = "YOUTUBE::VIDEO::" ++ nid) ∨
      (p = "youtube" ∧ ∃ nid, e.entityUniqueId = "YOUTUBE::VIDEO::" ++ nid) ∨
      (p = "deezer" ∧ ∃ nid, e.entityUniqueId = "DEEZER::TRACK::" ++ nid) ∨
      (p = "tidal" ∧ ∃ nid, e.entityUniqueId = "TIDAL::TRACK::" ++ nid) ∨
      (p = "appleMusic" ∧ e.entityUniqueId = "APPLEMUSIC::SONG::unknown") ∨
      (p = "amazonMusic" ∧ e.entityUniqueId = "AMAZONMUSIC::SONG::unknown") := by
  intro p e hm
  cases hx : extractMeta env platform trackId with
  | none =>
    simp only [processMusicLink, hp, hx] at h
    exact absurd h (by simp)
  | some md0 =>
    simp only [processMusicLink, hp, hx] at h
    rw [Except.ok.injEq] at h
    subst h
    simp only [ResponseBuilder.build_response] at hm
    rcases List.mem_map.mp hm with ⟨⟨q, bl⟩, hq, heq⟩
    rcases List.mem_map.mp hq with ⟨⟨q2, v⟩, hv, heq2⟩
    simp only [Prod.mk.injEq] at heq heq2
    have hpq : p = q2 := by rw [← heq.1, ← heq2.1]
    have heid : e.entityUniqueId = v.entityUniqueId := by
      rw [← heq.2]
      simp only [← heq2.2, Link.toBLink, Option.getD_some]
    rcases mem_mainLinks _ _ _ _ _ _ _ hv with
      ⟨h1, h2⟩ | ⟨h1, nid, nurl, h2⟩ | ⟨h1, nid, nurl, h2⟩ | ⟨h1, nid, nurl, h2⟩ |
      ⟨h1, nid, nurl, h2⟩ | ⟨h1, nid, nurl, h2⟩ | ⟨h1, nurl, h2⟩ | ⟨h1, nurl, h2⟩
    · exact Or.inl ⟨hpq.trans h1, _, by rw [heid, h2]⟩
    · exact Or.inr (Or.inl ⟨hpq.trans h1, nid, by rw [heid, h2]⟩)
    · exact Or.inr (Or.inr (Or.inl ⟨hpq.trans h1, nid, by rw [heid, h2]⟩))
    · exact Or.inr (Or.inr (Or.inr (Or.inl ⟨hpq.trans h1, nid, by rw [heid, h2]⟩)))
    · exact Or.inr (Or.inr (Or.inr (Or.inr (Or.inl
        ⟨hpq.trans h1, nid, by rw [heid, h2]⟩))))
    · exact Or.inr (Or.inr (Or.inr (Or.inr (Or.inr (Or.inl
        ⟨hpq.trans h1, nid, by rw [heid, h2]⟩)))))
    · exact Or.inr (Or.inr (Or.inr (Or.inr (Or.inr (Or.inr (Or.inl
        ⟨hpq.trans h1, by rw [heid, h2]⟩))))))
    · exact Or.inr (Or.inr (Or.inr (Or.inr (Or.inr (Or.inr (Or.inr
        ⟨hpq.trans h1, by rw [heid, h2]⟩))))))

/-- Counterexample to C2 as stated: in the Apple-Music-sourced
resolution the appleMusic entry's entityUniqueId is the literal
"APPLEMUSIC::SONG::unknown" — not UPPER(platform) + "::TRACK::" +
native-id-or-"unknown" as claimed (neither with the "unknown"
substitute nor with the verified native id 123). -/
theorem C2_counterexample :
    (List.lookup "appleMusic"
        (linksByPlatformOf (processMusicLink envApple
          "https://music.apple.com/song/test/123"))).map
        (fun e => e.entityUniqueId) =
      some "APPLEMUSIC::SONG::unknown" ∧
    "APPLEMUSIC::SONG::unknown" ≠ pyUpper "appleMusic" ++ "::TRACK::" ++ "unknown" ∧
    "APPLEMUSIC::SONG::unknown" ≠ pyUpper "appleMusic" ++ "::TRACK::" ++ "123" := by
  refine ⟨by decide, by decide, by decide⟩

/-- The appleMusic entry of the Apple-Music-sourced resolution below. -/
def appleOutLink : ResponseBuilder.OutLink :=
  ⟨"https://music.apple.com/search?term=Test+Artist+Test+Song",
    "APPLEMUSIC::SONG::unknown", none⟩

/-- Witness for C2 at the concrete Apple-Music-sourced environment,
instantiated at that resolution's appleMusic entry. -/
theorem C2_entity_id_shapes_witness :
    ("appleMusic" = "appleMusic" ∧ ∃ nid,
      appleOutLink.entityUniqueId = pyUpper "appleMusic" ++ "::TRACK::" ++ nid) ∨
    ("appleMusic" = "spotify" ∧ ∃ nid,
      appleOutLink.entityUniqueId = "SPOTIFY::TRACK::" ++ nid) ∨
    ("appleMusic" = "youtubeMusic" ∧ ∃ nid,
      appleOutLink.entityUniqueId = "YOUTUBE::VIDEO::" ++ nid) ∨
    ("appleMusic" = "youtube" ∧ ∃ nid,
      appleOutLink.entityUniqueId = "YOUTUBE::VIDEO::" ++ nid) ∨
    ("appleMusic" = "deezer" ∧ ∃ nid,
      appleOutLink.entityUniqueId = "DEEZER::TRACK::" ++ nid) ∨
    ("appleMusic" = "tidal" ∧ ∃ nid,
      appleOutLink.entityUniqueId = "TIDAL::TRACK::" ++ nid) ∨
    ("appleMusic" = "appleMusic" ∧
      appleOutLink.entityUniqueId = "APPLEMUSIC::SONG::unknown") ∨
    ("appleMusic" = "amazonMusic" ∧
      appleOutLink.entityUniqueId = "AMAZONMUSIC::SONG::unknown") :=
  C2_entity_id_shapes envApple "https://music.apple.com/song/test/123"
    "appleMusic" "123" _ rfl rfl "appleMusic" appleOutLink (by decide)

/-! ### Batch-loop lemmas -/

theorem length_filter_bool_split (p : α → Bool) (l : List α) :
    (l.filter p).length + (l.filter (fun a => !(p a))).length = l.length := by
  induction l with
  | nil => rfl
  | cons a as ih =>
    cases h : p a <;> simp [List.filter_cons, h, ← ih] <;> omega

theorem batchLoop_success_count (env : AppEnv) :
    ∀ (urls : List String) (idx : Nat),
      (batchLoop env idx urls).2.2 =
        (urls.filter (fun u => (processOneBatch env u).isOk)).length := by
  intro urls
  induction urls with
  | nil => intro idx; rfl
  | cons u us ih =>
    intro idx
    rw [batchLoop]
    cases hpo : processOneBatch env u <;>
      simp [hpo, List.filter_cons, Except.isOk, Except.toBool, ih (idx + 1)]

theorem batchLoop_tracks_count (env : AppEnv) :
    ∀ (urls : List String) (idx : Nat),
      (batchLoop env idx urls).1.length =
        (urls.filter (fun u => (processOneBatch env u).isOk)).length := by
  intro urls
  induction urls with
  | nil => intro idx; rfl
  | cons u us ih =>
    intro idx
    rw [batchLoop]
    cases hpo : processOneBatch env u <;>
      simp [hpo, List.filter_cons, Except.isOk, Except.toBool, ih (idx + 1)]

theorem batchLoop_errors_count (env : AppEnv) :
    ∀ (urls : List String) (idx : Nat),
      (batchLoop env idx urls).2.1.length =
        (urls.filter (fun u => !(processOneBatch env u).isOk)).length := by
  intro urls
  induction urls with
  | nil => intro idx; rfl
  | cons u us ih =>
    intro idx
    rw [batchLoop]
    cases hpo : processOneBatch env u <;>
      simp [hpo, List.filter_cons, Except.isOk, Except.toBool, ih (idx + 1)]

theorem batchLoop_errors_ref (env : AppEnv) :
    ∀ (urls : List String) (idx : Nat), ∀ e ∈ (batchLoop env idx urls).2.1,
      idx ≤ e.index ∧ urls[e.index - idx]? = some e.url ∧
        processOneBatch env e.url = .error e.error := by
  intro urls
  induction urls with
  | nil => intro idx e he; exact absurd he (by simp [batchLoop])
  | cons u us ih =>
    intro idx e he
    rw [batchLoop] at he
    cases hpo : processOneBatch env u with
    | ok tr =>
      rw [hpo] at he
      obtain ⟨h1, h2, h3⟩ := ih (idx + 1) e he
      refine ⟨by omega, ?_, h3⟩
      have : e.index - idx = (e.index - (idx + 1)) + 1 := by omega
      rw [this, List.getElem?_cons_succ]
      exact h2
    | error msg =>
      rw [hpo] at he
      rcases List.mem_cons.mp he with rfl | he
      · exact ⟨Nat.le_refl _, by simp, hpo⟩
      · obtain ⟨h1, h2, h3⟩ := ih (idx + 1) e he
        refine ⟨by omega, ?_, h3⟩
        have : e.index - idx = (e.index - (idx + 1)) + 1 := by omega
        rw [this, List.getElem?_cons_succ]
        exact h2

theorem batchLoop_isolation (env : AppEnv) :
    ∀ (urls : List String) (idx : Nat), ∀ u ∈ urls, ∀ tr,
      processOneBatch env u = .ok tr → tr ∈ (batchLoop env idx urls).1 := by
  intro urls
  induction urls with
  | nil => intro idx u hu; exact absurd hu (by simp)
  | cons u0 us ih =>
    intro idx u hu tr htr
    rw [batchLoop]
    rcases List.mem_cons.mp hu with rfl | hu
    · rw [htr]
      simp
    · cases hpo : processOneBatch env u0 <;>
        simp [hpo, ih (idx + 1) u hu tr htr]

/-- C8 (amended): for every NON-EMPTY batch of at most 10 URLs the
endpoint returns the per-item partial-success response: success_count
is the number of successfully resolved URLs, failed_count the number of
failed ones, they sum to the number of input URLs, every failure entry
references its original input url at its index, and every successful
URL's record is present regardless of other failures; a batch of more
than 10 URLs is rejected with a 400 client error.  (An EMPTY urls list —
which also has at most 10 — is rejected with 400 as well, contrary to
the claim as stated.) -/
theorem C8_batch_partial_success (env : AppEnv) (urls : List String)
    (hne : urls ≠ []) (hlen : urls.length ≤ 10) :
    (∃ resp, convert_batch env (some (UrlsValue.list urls)) = .ok resp ∧
      resp.success_count =
        (urls.filter (fun u => (processOneBatch env u).isOk)).length ∧
      resp.failed_count =
        (urls.filter (fun u => !(processOneBatch env u).isOk)).length ∧
      resp.success_count + resp.failed_count = urls.length ∧
      (∀ e ∈ resp.errors,
        urls[e.index]? = some e.url ∧
          processOneBatch env e.url = .error e.error) ∧
      (∀ u ∈ urls, ∀ tr, processOneBatch env u = .ok tr → tr ∈ resp.tracks)) ∧
    (∀ urls2 : List String, 10 < urls2.length →
      convert_batch env (some (UrlsValue.list urls2)) =
        .error ("Maximum 10 URLs allowed", 400)) := by
  constructor
  · rw [convert_batch, if_neg hne, if_neg (by omega)]
    refine ⟨_, rfl, ?_, ?_, ?_, ?_, ?_⟩
    · exact batchLoop_success_count env urls 0
    · exact batchLoop_errors_count env urls 0
    · rw [batchLoop_success_count env urls 0, batchLoop_errors_count env urls 0]
      exact length_filter_bool_split _ _
    · intro e he
      obtain ⟨-, h2, h3⟩ := batchLoop_errors_ref env urls 0 e he
      rw [Nat.sub_zero] at h2
      exact ⟨h2, h3⟩
    · intro u hu tr htr
      exact batchLoop_isolation env urls 0 u hu tr htr
  · intro urls2 h2
    have hne2 : urls2 ≠ [] := by
      intro hc
      rw [hc] at h2
      exact absurd h2 (by decide)
    rw [convert_batch, if_neg hne2, if_pos (by omega)]

/-- Counterexample to C8 as stated: the empty urls list has at most the
maximum size, yet the endpoint rejects it with a 400 error instead of
returning the counting response. -/
theorem C8_counterexample :
    ([] : List String).length ≤ 10 ∧
    convert_batch envNone (some (UrlsValue.list [])) =
      .error ("Invalid request: urls array required", 400) :=
  ⟨by decide, rfl⟩

/-- A batch environment: one resolvable Spotify URL; everything else
unparseable. -/
def envBatchW : AppEnv :=
  { envNone with
    parse := fun u =>
      if u = "https://open.spotify.com/track/track1" then
        some ("spotify", "track1")
      else none
    spotifyMeta := fun _ =>
      some ⟨"track1", "Song", "Artist", some "ISRC1", some "cover1",
        "https://open.spotify.com/track/track1"⟩ }

/-- Witness for C8: a 2-URL batch (one valid, one malformed). -/
theorem C8_batch_partial_success_witness :
    ∃ resp,
      convert_batch envBatchW
        (some (UrlsValue.list
          ["https://open.spotify.com/track/track1", "notaurl"])) = .ok resp ∧
      resp.success_count + resp.failed_count = 2 := by
  obtain ⟨⟨resp, hok, -, -, hsum, -, -⟩, -⟩ := C8_batch_partial_success envBatchW
    ["https://open.spotify.com/track/track1", "notaurl"] (by decide) (by decide)
  exact ⟨resp, hok, hsum⟩

end Unitune
